import Mathlib

/-
Shallow embedding of WebThingsIO/gpio-adapter (src/gpio-adapter.js).

The embedding follows the source file function by function:
  * the debounce machinery is the watch callback installed in
    GpioProperty.constructor together with the setTimeout callback it
    schedules;
  * setValue is GpioProperty.setValue (the onoff write callback receives
    only an error argument; the electrical level the hardware actually
    latches is modelled explicitly because it is invisible to the code);
  * update is GpioProperty.update;
  * the configuration model covers GpioAdapter.constructor's merging of
    the legacy "pins" / "gpios" keys and its array-of-structs conversion,
    loadGpioAdapter's migration promise chain, and GpioDevice's
    direction dispatch.
-/

namespace GpioAdapterModel

/-! ## Debounce filter

State of one watching GpioProperty's debounce machinery.  Every
GpioProperty whose device direction is in installs its own watch callback
with its own flag and timer; an input-pin GpioDevice creates two such
properties (see DeviceDebounce below).  `debouncing` is the
`this.debouncing` flag of that GpioProperty.  `pending` records the due
times of every scheduled, not-yet-fired setTimeout callback of that
property (a list, so that timer counts are provable rather than built into
the type).  `updates` records the times at which `this.update()` ran, i.e.
that property's PinState updates. -/
structure DebounceState where
  debouncing : Bool
  pending : List Nat
  updates : List Nat
deriving DecidableEq, Repr

/-- Initial state: `this.debouncing = false`, no timer scheduled, and no
edge-driven update yet. -/
def initState : DebounceState :=
  { debouncing := false, pending := [], updates := [] }

/-- The watch callback of GpioProperty.constructor, receiving a raw edge at
time `t` with configured debounce `debounce` (pinConfig.debounce):
if `debounce === 0` it updates immediately; otherwise, if not already
debouncing, it sets the flag and schedules a one-shot timer for
`debounce` ms (due at `t + debounce`); while debouncing, extra edges are
ignored. -/
def watchEdge (debounce t : Nat) (s : DebounceState) : DebounceState :=
  if debounce = 0 then
    { s with updates := s.updates ++ [t] }
  else if s.debouncing then
    s
  else
    { s with debouncing := true, pending := s.pending ++ [t + debounce] }

/-- The setTimeout callback: when a scheduled timer fires at its due time
`t`, it clears the debouncing flag and runs `this.update()`.  Firing a time
with no scheduled timer is a no-op (only scheduled timers fire). -/
def timerFire (t : Nat) (s : DebounceState) : DebounceState :=
  if s.pending.contains t then
    { debouncing := false, pending := s.pending.erase t, updates := s.updates ++ [t] }
  else
    s

/-- Events delivered to one watching property: a raw hardware edge, or
the firing of one of that property's scheduled debounce timers, each
stamped with its time. -/
inductive PinEvent where
  | edge (t : Nat)
  | timer (t : Nat)
deriving DecidableEq, Repr

/-- One step of the pin's event processing. -/
def step (debounce : Nat) (s : DebounceState) (e : PinEvent) : DebounceState :=
  match e with
  | .edge t => watchEdge debounce t s
  | .timer t => timerFire t s

/-- Process a sequence of events from a given state. -/
def runFrom (debounce : Nat) (s : DebounceState) (es : List PinEvent) : DebounceState :=
  es.foldl (step debounce) s

/-- Process a sequence of events from the initial state. -/
def run (debounce : Nat) (es : List PinEvent) : DebounceState :=
  runFrom debounce initState es

/-- The coupling invariant of the debouncing flag and the timer count:
exactly one timer is pending while `debouncing` holds, none otherwise. -/
def debInv (s : DebounceState) : Prop :=
  s.pending.length = (if s.debouncing then 1 else 0)

/-! ## Per-pin view: the two watching properties of one input device

GpioDevice.initBinarySensor creates two GpioProperty instances for one
input pin — the on property and the pushed property — and each of their
constructors runs this.device.gpio.watch(...) on the same pin handle.
The onoff watch primitive appends listeners, so one raw edge invokes both
watch callbacks, and each property keeps its own debouncing flag and
schedules its own setTimeout. -/

/-- Debounce state of one input-pin GpioDevice: the independent machinery
of its on property and of its pushed property. -/
structure DeviceDebounce where
  onProp : DebounceState
  pushedProp : DebounceState
deriving DecidableEq, Repr

/-- Initial per-device state: both properties idle. -/
def initDevice : DeviceDebounce :=
  { onProp := initState, pushedProp := initState }

/-- Events delivered to one input-pin device: a raw hardware edge (which
runs both properties' watch callbacks), or the firing of a timer scheduled
by one specific property. -/
inductive DeviceEvent where
  | edge (t : Nat)
  | timerOn (t : Nat)
  | timerPushed (t : Nat)
deriving DecidableEq, Repr

/-- One step of an input-pin device's event processing. -/
def deviceStep (debounce : Nat) (s : DeviceDebounce) (e : DeviceEvent) : DeviceDebounce :=
  match e with
  | .edge t =>
      { onProp := watchEdge debounce t s.onProp,
        pushedProp := watchEdge debounce t s.pushedProp }
  | .timerOn t => { s with onProp := timerFire t s.onProp }
  | .timerPushed t => { s with pushedProp := timerFire t s.pushedProp }

/-- Process a sequence of events against one input-pin device, from the
initial state. -/
def deviceRun (debounce : Nat) (es : List DeviceEvent) : DeviceDebounce :=
  es.foldl (deviceStep debounce) initDevice

/-- The number of pending debounce timers scheduled on behalf of the pin:
those of both of its watching properties together. -/
def pinPendingTimers (s : DeviceDebounce) : Nat :=
  s.onProp.pending.length + s.pushedProp.pending.length

/-- The per-device coupling invariant: each property's machinery
separately satisfies debInv. -/
def devInv (s : DeviceDebounce) : Prop :=
  debInv s.onProp ∧ debInv s.pushedProp

/-! ## PinState updates and event derivation (GpioProperty.update) -/

/-- State observable on one GpioProperty and its device: the cached value,
the number of notifyPropertyChanged calls, and the device events emitted
(in order). -/
structure DeviceState where
  cachedValue : Bool
  notifications : Nat
  events : List String
deriving DecidableEq, Repr

/-- GpioProperty.update: setCachedValue(this.device.gpio.readSync()), then
notifyPropertyChanged, then, when the property's @type string equals
PushedProperty, notifyEvent of pressed or released keyed on the new value.
`atType` is the property's @type, `pinValue` the readSync result. -/
def update (atType : String) (pinValue : Bool) (s : DeviceState) : DeviceState :=
  let s1 : DeviceState :=
    { cachedValue := pinValue, notifications := s.notifications + 1, events := s.events }
  if atType = "PushedProperty" then
    { s1 with events := s1.events ++ [if pinValue then "pressed" else "released"] }
  else
    s1

/-- The property @type strings created for an input pin by
GpioDevice.initBinarySensor (the on and pushed properties). -/
def inputPropertyTypes : List String := ["BooleanProperty", "PushedProperty"]

/-- The property @type strings created for an output pin by
GpioDevice.initOnOffSwitch (the on property). -/
def outputPropertyTypes : List String := ["OnOffProperty"]

/-! ## Writes (GpioProperty.setValue) -/

/-- State of one writable property: cached value and notification count. -/
structure PropState where
  cachedValue : Bool
  notifications : Nat
deriving DecidableEq, Repr

/-- Outcome of the hardware write primitive (onoff gpio.write).  Its
callback receives only an error argument; on success the electrical level
the hardware actually latched is recorded here for specification purposes,
but the callback never sees it. -/
inductive WriteOutcome where
  | failure (err : String)
  | success (actualLevel : Bool)
deriving DecidableEq, Repr

/-- GpioProperty.setValue: gpio.write(value ? 1 : 0, cb).  When cb gets an
error, the promise rejects with it and nothing else happens.  Otherwise
setCachedValue(value) runs, the promise resolves with this.value (the
requested value as cached), and notifyPropertyChanged fires once.  Returns
the post-call state and the promise outcome. -/
def setValue (s : PropState) (value : Bool) (hw : WriteOutcome) :
    PropState × Except String Bool :=
  match hw with
  | .failure err => (s, Except.error err)
  | .success _ =>
      ({ cachedValue := value, notifications := s.notifications + 1 }, Except.ok value)

/-! ## Configuration resolution (GpioAdapter.constructor, loadGpioAdapter) -/

/-- A JavaScript pin-config object.  Each field is `some v` when present
(a field explicitly set to undefined is conflated with an absent one; no
claim below depends on that distinction). -/
structure PinRecord where
  pin : Option Nat
  name : Option String
  direction : Option String
  value : Option Nat
  activeLow : Option Bool
  edge : Option String
  debounce : Option Nat
deriving DecidableEq, Repr

/-- A JavaScript object keyed by pin-number strings, as an association
list with numeric keys (the keys are decimal pin-number strings). -/
abbrev PinMap := List (Nat × PinRecord)

/-- Assignment of one key with JavaScript object semantics: an existing
key is overwritten in place, a new key is appended. -/
def objInsert (m : PinMap) (k : Nat) (v : PinRecord) : PinMap :=
  if (m.map Prod.fst).contains k then
    m.map (fun kv => if kv.1 = k then (k, v) else kv)
  else
    m ++ [(k, v)]

/-- Object.assign(m1, m2) for pin maps: every key of m2 overwrites m1. -/
def objAssign (m1 m2 : PinMap) : PinMap :=
  m2.foldl (fun acc kv => objInsert acc kv.1 kv.2) m1

/-- The value stored under the "gpios" config key: an object in old
configs, an array of structs in canonical configs. -/
inductive GpiosVal where
  | arr (l : List PinRecord)
  | obj (m : PinMap)
deriving DecidableEq, Repr

/-- A configuration blob: the legacy "pins" key and the "gpios" key, each
possibly absent. -/
structure Config where
  pins : Option PinMap
  gpios : Option GpiosVal
deriving DecidableEq, Repr

/-- One iteration of GpioAdapter.constructor's array loop:
gpios[gpio.pin.toFixed(0).toString()] = \x7bname, direction, value,
activeLow\x7d.  Only those four fields are copied; the pin, edge and
debounce fields are not.  A missing pin field makes gpio.pin.toFixed
throw, modelled as none. -/
def convertArrayEntry (g : PinRecord) : Option (Nat × PinRecord) :=
  match g.pin with
  | none => none
  | some p =>
      some (p,
        { pin := none, name := g.name, direction := g.direction,
          value := g.value, activeLow := g.activeLow, edge := none, debounce := none })

/-- GpioAdapter.constructor's resolution of manifest.moziot.config into
the gpios object it constructs devices from: start empty, Object.assign
the "pins" map when present, then either fold the canonical array through
convertArrayEntry or Object.assign the legacy "gpios" object.  Yields none
when the array loop throws on a missing pin field. -/
def adapterResolve (cfg : Config) : Option PinMap :=
  let g1 : PinMap :=
    match cfg.pins with
    | some m => objAssign [] m
    | none => []
  match cfg.gpios with
  | none => some g1
  | some (.obj m) => some (objAssign g1 m)
  | some (.arr l) =>
      l.foldlM (fun acc g => (convertArrayEntry g).map (fun pv => objInsert acc pv.1 pv.2)) g1

/-! ## Device construction (GpioDevice.constructor, GpioAdapter loop) -/

/-- The direction GpioDevice's switch dispatches on, after the
constructor's defaulting (an absent direction defaults to in). -/
def directionOf (pc : PinRecord) : String :=
  match pc.direction with
  | none => "in"
  | some d => d

/-- The registration outcome of one GpioDevice construction, as the pair
(registered via handleDeviceAdded, unsupported-direction error reported).
Directions in and out initialize their properties and register the device;
any other direction hits the switch default, which only logs the error.
The constructor does not throw on an unsupported direction, so the
adapter's loop continues with the remaining entries. -/
def gpioDeviceOutcome (pc : PinRecord) : Bool × Bool :=
  if directionOf pc = "in" then (true, false)
  else if directionOf pc = "out" then (true, false)
  else (false, true)

/-- GpioAdapter.constructor's device loop: one GpioDevice per resolved
entry, each constructed independently of the others' outcomes. -/
def constructDevices (m : PinMap) : List (Nat × (Bool × Bool)) :=
  m.map (fun kv => (kv.1, gpioDeviceOutcome kv.2))

/-! ## loadGpioAdapter's migration promise chain -/

/-- The legacy entries collected by loadGpioAdapter's migration: the
"pins" map, overlaid by the "gpios" value when that one is an object (an
array is already canonical and is collected from neither key). -/
def migrateOld (c : Config) : PinMap :=
  let old : PinMap :=
    match c.pins with
    | some m => objAssign [] m
    | none => []
  match c.gpios with
  | some (.obj m) => objAssign old m
  | _ => old

/-- Outcome of loadGpioAdapter: whether new GpioAdapter(...) ran, and
whether any failure was reported (via _errorCallback or otherwise). -/
structure LoadOutcome where
  adapterConstructed : Bool
  errorReported : Bool
deriving DecidableEq, Repr

/-- loadGpioAdapter: the chain db.open().then(() => db.loadConfig()).then
(migrate legacy keys and, when legacy entries were found, return
db.saveConfig(...)), followed by promise.then(() => new GpioAdapter(...)).
The chain has no catch and _errorCallback is never invoked, so any
rejection — open or load failure, or a saveConfig failure — makes the
final then skip adapter construction, and nothing is reported.
`openLoad` combines the outcomes of db.open and db.loadConfig; `save` is
the outcome of db.saveConfig. -/
def loadGpioAdapter (openLoad : Except String Config) (save : Except String Unit) :
    LoadOutcome :=
  let chain : Except String Unit :=
    match openLoad with
    | .error e => .error e
    | .ok config =>
        if (migrateOld config).length > 0 then save else .ok ()
  match chain with
  | .ok _ => { adapterConstructed := true, errorReported := false }
  | .error _ => { adapterConstructed := false, errorReported := false }

/-- The empty pin-config object. -/
def emptyRec : PinRecord :=
  { pin := none, name := none, direction := none, value := none,
    activeLow := none, edge := none, debounce := none }

/-- A canonical array-of-structs entry carrying the full set of Input
fields, used to exercise the array conversion. -/
def canonicalEntry : PinRecord :=
  { pin := some 2, name := some "a", direction := some "in", value := none,
    activeLow := none, edge := some "rising", debounce := some 50 }

theorem erase_of_len_one (l : List Nat) (t : Nat) (h1 : l.length = 1) (h2 : t ∈ l) :
    l.erase t = [] := by
  cases l with
  | nil => simp at h1
  | cons x xs =>
    cases xs with
    | nil =>
      have hx : t = x := by simpa using h2
      subst hx
      simp
    | cons y ys => simp at h1

theorem debInv_preserved (d : Nat) (s : DebounceState) (e : PinEvent) (h : debInv s) :
    debInv (step d s e) := by
  cases e with
  | edge t =>
    by_cases h0 : d = 0
    · simpa [step, watchEdge, h0, debInv] using h
    · by_cases hb : s.debouncing
      · simpa [step, watchEdge, h0, hb, debInv] using h
      · simp only [debInv, hb, if_false] at h
        simp [step, watchEdge, h0, hb, debInv, h]
  | timer t =>
    by_cases hmem : t ∈ s.pending
    · have hb : s.debouncing = true := by
        by_contra hb
        simp only [Bool.not_eq_true] at hb
        rw [debInv, hb] at h
        simp only [Bool.false_eq_true, if_false, List.length_eq_zero] at h
        rw [h] at hmem
        simp at hmem
      have h1 : s.pending.length = 1 := by simpa [debInv, hb] using h
      have he : s.pending.erase t = [] := erase_of_len_one _ t h1 hmem
      simp [step, timerFire, hmem, debInv, he]
    · simpa [step, timerFire, hmem] using h

theorem debInv_runFrom (d : Nat) (es : List PinEvent) (s : DebounceState) (h : debInv s) :
    debInv (runFrom d s es) := by
  induction es generalizing s with
  | nil => simpa [runFrom] using h
  | cons e es ih =>
    simp only [runFrom, List.foldl_cons]
    exact ih _ (debInv_preserved d s e h)

theorem devInv_preserved (d : Nat) (s : DeviceDebounce) (e : DeviceEvent) (h : devInv s) :
    devInv (deviceStep d s e) := by
  obtain ⟨h1, h2⟩ := h
  cases e with
  | edge t =>
    exact ⟨debInv_preserved d s.onProp (PinEvent.edge t) h1,
      debInv_preserved d s.pushedProp (PinEvent.edge t) h2⟩
  | timerOn t =>
    exact ⟨debInv_preserved d s.onProp (PinEvent.timer t) h1, h2⟩
  | timerPushed t =>
    exact ⟨h1, debInv_preserved d s.pushedProp (PinEvent.timer t) h2⟩

theorem devInv_foldl (d : Nat) (es : List DeviceEvent) (s : DeviceDebounce) (h : devInv s) :
    devInv (es.foldl (deviceStep d) s) := by
  induction es generalizing s with
  | nil => simpa using h
  | cons e es ih =>
    simp only [List.foldl_cons]
    exact ih _ (devInv_preserved d s e h)

/-- C5 counterexample: an input pin has two watching properties (on and
pushed, both created by initBinarySensor), each with its own debouncing
flag and setTimeout; a single raw edge at time 0 with the default
debounceMs = 10 runs both watch callbacks and puts two pending timers in
flight on behalf of the same pin, so the per-pin at-most-one-timer
invariant fails. -/
theorem gpio_C5_counterexample :
    pinPendingTimers (deviceRun 10 [DeviceEvent.edge 0]) = 2 ∧
    ¬ pinPendingTimers (deviceRun 10 [DeviceEvent.edge 0]) ≤ 1 ∧
    (deviceRun 10 [DeviceEvent.edge 0]).onProp.pending = [10] ∧
    (deviceRun 10 [DeviceEvent.edge 0]).pushedProp.pending = [10] := by
  decide

/-- C5 amended: along every sequence of edge notifications and timer
firings from the initial state, each watching property of an input pin has
at most one pending debounce timer at any point (its debouncing flag
prevents scheduling a second setTimeout while one is in flight), so the
pin as a whole — with its two watching properties — has at most two. -/
theorem gpio_C5_per_property_timer_bound (d : Nat) (es : List DeviceEvent) :
    (deviceRun d es).onProp.pending.length ≤ 1 ∧
    (deviceRun d es).pushedProp.pending.length ≤ 1 ∧
    pinPendingTimers (deviceRun d es) ≤ 2 := by
  have h : devInv (deviceRun d es) :=
    devInv_foldl d es initDevice
      ⟨by simp [debInv, initDevice, initState], by simp [debInv, initDevice, initState]⟩
  obtain ⟨h1, h2⟩ := h
  rw [debInv] at h1 h2
  have b1 : (deviceRun d es).onProp.pending.length ≤ 1 := by
    split at h1 <;> omega
  have b2 : (deviceRun d es).pushedProp.pending.length ≤ 1 := by
    split at h2 <;> omega
  refine ⟨b1, b2, ?_⟩
  rw [pinPendingTimers]
  omega

/-- C2: with debounceMs = d > 0, after an accepted edge at time 0 opens
the window, raw edges at d/4 and d/2 leave the filter state unchanged
(zero PinState updates, the pending timer neither rescheduled nor
extended), and the timer firing at time d produces exactly one additional
PinState update, at time d (the settle read). -/
theorem gpio_C2_debounce_suppression (d : Nat) (hd : 0 < d) :
    run d [PinEvent.edge 0, PinEvent.edge (d / 4), PinEvent.edge (d / 2)]
      = run d [PinEvent.edge 0] ∧
    run d [PinEvent.edge 0]
      = { debouncing := true, pending := [d], updates := [] } ∧
    (run d [PinEvent.edge 0, PinEvent.edge (d / 4), PinEvent.edge (d / 2),
        PinEvent.timer d]).updates
      = [d] := by
  have hd0 : d ≠ 0 := Nat.pos_iff_ne_zero.mp hd
  refine ⟨?_, ?_, ?_⟩ <;>
    simp [run, runFrom, step, watchEdge, timerFire, initState, hd0]

/-- Witness for gpio_C2_debounce_suppression at d = 8. -/
theorem gpio_C2_witness :
    run 8 [PinEvent.edge 0, PinEvent.edge (8 / 4), PinEvent.edge (8 / 2)]
      = run 8 [PinEvent.edge 0] ∧
    run 8 [PinEvent.edge 0]
      = { debouncing := true, pending := [8], updates := [] } ∧
    (run 8 [PinEvent.edge 0, PinEvent.edge (8 / 4), PinEvent.edge (8 / 2),
        PinEvent.timer 8]).updates
      = [8] :=
  gpio_C2_debounce_suppression 8 (by decide)

/-- C1 counterexample: with the default debounceMs = 10, the edge accepted
while Armed at time 0 performs no immediate PinState update (updates stays
empty) even though it transitions to Suppressing and schedules the timer,
and the full debounce cycle performs exactly one update, not two. -/
theorem gpio_C1_counterexample :
    (run 10 [PinEvent.edge 0]).updates = [] ∧
    (run 10 [PinEvent.edge 0]).debouncing = true ∧
    (run 10 [PinEvent.edge 0]).pending = [10] ∧
    (run 10 [PinEvent.edge 0, PinEvent.timer 10]).updates.length = 1 := by
  decide

/-- C1 amended: when an edge notification arrives while Armed and
debounceMs = d > 0, the filter performs no PinState update at the edge; it
transitions to Suppressing and schedules a one-shot timer due d ms later,
and the single PinState update of the cycle happens when that timer fires
(the settle read), after which the filter is Armed again. -/
theorem gpio_C1_no_update_at_edge (d t : Nat) (hd : 0 < d) :
    watchEdge d t initState
      = { debouncing := true, pending := [t + d], updates := [] } ∧
    timerFire (t + d) (watchEdge d t initState)
      = { debouncing := false, pending := [], updates := [t + d] } := by
  have hd0 : d ≠ 0 := Nat.pos_iff_ne_zero.mp hd
  constructor <;> simp [watchEdge, timerFire, initState, hd0]

/-- Witness for gpio_C1_no_update_at_edge at d = 10, t = 0. -/
theorem gpio_C1_no_update_at_edge_witness :
    watchEdge 10 0 initState
      = { debouncing := true, pending := [0 + 10], updates := [] } ∧
    timerFire (0 + 10) (watchEdge 10 0 initState)
      = { debouncing := false, pending := [], updates := [0 + 10] } :=
  gpio_C1_no_update_at_edge 10 0 (by decide)

/-- C4: when the hardware write reports an error, setValue leaves the
whole property state unchanged (cached value and notification count) and
the promise rejects with that error; no property-changed notification is
sent. -/
theorem gpio_C4_write_failure (s : PropState) (value : Bool) (err : String) :
    setValue s value (WriteOutcome.failure err) = (s, Except.error err) :=
  rfl

/-- C3 counterexample: requesting true while the hardware latches false
(write reported successful), setValue caches true and resolves with true —
the requested target, not the actual level false. -/
theorem gpio_C3_counterexample :
    (setValue ⟨false, 0⟩ true (WriteOutcome.success false)).1.cachedValue = true ∧
    ¬ (setValue ⟨false, 0⟩ true (WriteOutcome.success false)).1.cachedValue = false ∧
    (setValue ⟨false, 0⟩ true (WriteOutcome.success false)).2 = Except.ok true ∧
    ¬ (setValue ⟨false, 0⟩ true (WriteOutcome.success false)).2 = Except.ok false := by
  refine ⟨rfl, by decide, rfl, by simp [setValue]⟩

/-- C3 amended: the hardware write callback reports no value at all; on a
successful write, setValue caches the requested value and resolves with
it, irrespective of the level the hardware actually latched, and fires
exactly one property-changed notification. -/
theorem gpio_C3_success_caches_requested (s : PropState) (value actual : Bool) :
    setValue s value (WriteOutcome.success actual)
      = ({ cachedValue := value, notifications := s.notifications + 1 }, Except.ok value) :=
  rfl

/-- C9: a PinState update on the pushed property (@type PushedProperty) of
a push-button input pin appends exactly one event — pressed when the new
value is true (one more pressed, no new released), released when false
(one more released, no new pressed) — while updates on the other property
@types the code creates (BooleanProperty on inputs, OnOffProperty on
outputs) emit no event, so event derivation is active only for push-button
input pins. -/
theorem gpio_C9_event_derivation (s : DeviceState) (v : Bool) :
    ((update "PushedProperty" v s).events
        = s.events ++ [if v then "pressed" else "released"]) ∧
    ((update "PushedProperty" true s).events.count "pressed"
        = s.events.count "pressed" + 1) ∧
    ((update "PushedProperty" true s).events.count "released"
        = s.events.count "released") ∧
    ((update "PushedProperty" false s).events.count "released"
        = s.events.count "released" + 1) ∧
    ((update "PushedProperty" false s).events.count "pressed"
        = s.events.count "pressed") ∧
    (update "BooleanProperty" v s).events = s.events ∧
    (update "OnOffProperty" v s).events = s.events ∧
    inputPropertyTypes = ["BooleanProperty", "PushedProperty"] ∧
    outputPropertyTypes = ["OnOffProperty"] := by
  refine ⟨?_, ?_, ?_, ?_, ?_, ?_, ?_, rfl, rfl⟩ <;>
    simp [update, List.count_append, List.count_cons, List.count_nil]

/-- C6 counterexample: resolving the already-canonical array config whose
single entry carries edge and debounce fields drops both — the per-pin
record that comes back is not field-for-field the entry it came from. -/
theorem gpio_C6_counterexample :
    adapterResolve { pins := none, gpios := some (GpiosVal.arr [canonicalEntry]) }
      = some [(2, { pin := none, name := some "a", direction := some "in",
                    value := none, activeLow := none,
                    edge := none, debounce := none })] ∧
    canonicalEntry.edge = some "rising" ∧
    canonicalEntry.debounce = some 50 ∧
    ¬ adapterResolve { pins := none, gpios := some (GpiosVal.arr [canonicalEntry]) }
        = some [(2, canonicalEntry)] := by
  decide

/-- C6 amended: resolving an already-canonical array-of-structs config
re-keys each entry by its pin number and preserves exactly the name,
direction, value and activeLow fields; the pin, edge and debounce fields
are not carried into the per-pin record (edge and debounce are re-created
from defaults later, at device construction). -/
theorem gpio_C6_array_resolution (g : PinRecord) (p : Nat) (hp : g.pin = some p) :
    adapterResolve { pins := none, gpios := some (GpiosVal.arr [g]) }
      = some [(p, { pin := none, name := g.name, direction := g.direction,
                    value := g.value, activeLow := g.activeLow,
                    edge := none, debounce := none })] := by
  simp [adapterResolve, List.foldlM_cons, List.foldlM_nil, convertArrayEntry, hp,
    objInsert]

/-- Witness for gpio_C6_array_resolution at the canonical entry. -/
theorem gpio_C6_array_resolution_witness :
    adapterResolve { pins := none, gpios := some (GpiosVal.arr [canonicalEntry]) }
      = some [(2, { pin := none, name := canonicalEntry.name,
                    direction := canonicalEntry.direction,
                    value := canonicalEntry.value,
                    activeLow := canonicalEntry.activeLow,
                    edge := none, debounce := none })] :=
  gpio_C6_array_resolution canonicalEntry 2 (by decide)

/-- C8: GpioAdapter.constructor applies the legacy pins map first and then
overlays the legacy gpios object so the gpios entry wins on an identical
pin index; in particular pins carrying name a and gpios carrying name b on
pin 2 resolve pin 2 to name b. -/
theorem gpio_C8_merge_precedence (k : Nat) (r1 r2 : PinRecord) :
    adapterResolve { pins := some [(k, r1)], gpios := some (GpiosVal.obj [(k, r2)]) }
      = some [(k, r2)] ∧
    adapterResolve
        { pins := some [(2, { emptyRec with name := some "a" })],
          gpios := some (GpiosVal.obj [(2, { emptyRec with name := some "b" })]) }
      = some [(2, { emptyRec with name := some "b" })] := by
  constructor
  · simp [adapterResolve, objAssign, objInsert]
  · decide

/-- C7 evaluation at the failing input: with a legacy config holding one
pins entry (so the migration produces a canonical array and attempts to
persist it) and db.saveConfig rejecting, the promise chain rejects, the
GpioAdapter is never constructed, and nothing is reported — the
persistence failure aborts device construction. -/
theorem gpio_C7_save_failure_aborts :
    loadGpioAdapter (Except.ok { pins := some [(2, emptyRec)], gpios := none })
        (Except.error "save failed")
      = { adapterConstructed := false, errorReported := false } :=
  rfl

/-- C10: in the device-construction loop, an entry whose direction is
neither in nor out is alone rejected — not registered, the unsupported
direction reported — while every other entry's construction outcome is
exactly what it would be without the bad entry; no entry aborts the set. -/
theorem gpio_C10_bad_direction_skipped (xs ys : PinMap) (p : Nat) (bad : PinRecord)
    (d : String) (hd : bad.direction = some d) (hin : d ≠ "in") (hout : d ≠ "out") :
    constructDevices (xs ++ (p, bad) :: ys)
      = constructDevices xs ++ (p, (false, true)) :: constructDevices ys := by
  simp [constructDevices, gpioDeviceOutcome, directionOf, hd, hin, hout]

/-- Witness for gpio_C10_bad_direction_skipped: direction foo on pin 2
between a defaulted input on pin 1 and an output on pin 3. -/
theorem gpio_C10_witness :
    constructDevices ([(1, emptyRec)] ++ (2, { emptyRec with direction := some "foo" })
        :: [(3, { emptyRec with direction := some "out" })])
      = constructDevices [(1, emptyRec)] ++ (2, (false, true))
          :: constructDevices [(3, { emptyRec with direction := some "out" })] :=
  gpio_C10_bad_direction_skipped [(1, emptyRec)]
    [(3, { emptyRec with direction := some "out" })] 2
    { emptyRec with direction := some "foo" } "foo" (by decide) (by decide) (by decide)

end GpioAdapterModel
